import Mathlib

/-!
# `sys.c`: host operating-system queries exposed to Lua

A shallow embedding of the C functions of `src/sys.c` and of the small part of
the Lua C API they use.

Conventions of the embedding

* `lua_Number` (a C `double`) is idealised as an exact rational: binary64
  rounding, infinities and NaN are not modelled.
* Machine integers are `Nat`/`Int` with explicit reduction modulo `2 ^ w`.
* The results of operating-system calls are arguments of the embedded
  functions; the calls a function makes to `usleep`, `Sleep` and `setpriority`
  are appended to a trace carried by the state.
* A Lua API call that would raise an error yields `none`.
-/

namespace Sys

/-! ## Lua values and the Lua state -/

/-- The type `lua_Number`, idealised as an exact rational. -/
abbrev lua_Number := ℚ

/-- Lua values.  Tables are association lists from string keys to numbers in
insertion order, the only kind of table `sys.c` builds; `other` stands for
functions, userdata and threads. -/
inductive TValue where
  | nil
  | boolean (b : Bool)
  | number (n : lua_Number)
  | string (s : String)
  | table (fields : List (String × lua_Number))
  | other
  deriving DecidableEq

/-- Operating-system primitives whose arguments are recorded. -/
inductive Syscall where
  | usleep (usec : Nat)
  | Sleep (ms : Nat)
  | setpriority (which : Int) (who : Int) (prio : Int)
  deriving DecidableEq

/-- The state seen by a C function: its stack frame, listed from the top slot
down (index `-1` is the head, index `1` the last element), and the trace of
recorded primitives, oldest first. -/
structure lua_State where
  stack : List TValue
  trace : List Syscall
  deriving DecidableEq

/-- The state in which a C function is entered when called with `args`. -/
def call (args : List TValue) : lua_State :=
  { stack := args.reverse, trace := [] }

/-- Parts of the platform that `sys.c` relies on and that the C and Lua
standards leave open: Lua's string-to-number coercion, and the value an
out-of-range `double` to `int` conversion produces. -/
structure Host where
  luaO_str2d : String → Option lua_Number
  d2i_outOfRange : lua_Number → Int

/-- The value at a positive stack index, `none` for an index above the top. -/
def index2adr (L : lua_State) (idx : Nat) : Option TValue :=
  if 1 ≤ idx ∧ idx ≤ L.stack.length then L.stack.get? (L.stack.length - idx) else none

/-- The API function `lua_isnumber`: a number, or a string convertible to one. -/
def lua_isnumber (H : Host) (L : lua_State) (idx : Nat) : Bool :=
  match index2adr L idx with
  | some (.number _) => true
  | some (.string s) => (H.luaO_str2d s).isSome
  | _ => false

/-- The API function `lua_tonumber`: `0` when the value is not convertible. -/
def lua_tonumber (H : Host) (L : lua_State) (idx : Nat) : lua_Number :=
  match index2adr L idx with
  | some (.number n) => n
  | some (.string s) => (H.luaO_str2d s).getD 0
  | _ => 0

def lua_pushnumber (L : lua_State) (n : lua_Number) : lua_State :=
  { L with stack := .number n :: L.stack }

def lua_pushboolean (L : lua_State) (b : Bool) : lua_State :=
  { L with stack := .boolean b :: L.stack }

def lua_pushstring (L : lua_State) (s : String) : lua_State :=
  { L with stack := .string s :: L.stack }

def lua_pushnil (L : lua_State) : lua_State :=
  { L with stack := .nil :: L.stack }

def lua_newtable (L : lua_State) : lua_State :=
  { L with stack := .table [] :: L.stack }

/-- Assignment `t[k] = v` on an association list. -/
def rawset (fields : List (String × lua_Number)) (k : String) (v : lua_Number) :
    List (String × lua_Number) :=
  if fields.any (fun e => e.1 == k) then
    fields.map (fun e => if e.1 == k then (k, v) else e)
  else fields ++ [(k, v)]

/-- The API function `lua_settable` for a string key and a number value: `t[k] = v`
with `v` at the top, `k` below it and `t` at `idx`; pops both.  Any other use
is an error in this model. -/
def lua_settable (L : lua_State) (idx : Int) : Option lua_State :=
  match L.stack with
  | .number v :: .string k :: rest =>
    let n := rest.length + 2
    let pos : Int := if idx < 0 then -idx - 1 else n - idx
    if 2 ≤ pos ∧ pos < n then
      match rest.get? (pos.toNat - 2) with
      | some (.table fields) =>
        some { L with stack := rest.set (pos.toNat - 2) (.table (rawset fields k v)) }
      | _ => none
    else none
  | _ => none

/-- The values a C function hands to its caller when it returns `n`: the top
`n` slots of its frame, first result first.  When the frame holds fewer than
`n` values the API leaves the missing ones undefined; they are left out. -/
def results (r : lua_State × Int) : List TValue :=
  (r.1.stack.take r.2.toNat).reverse

/-! ## C integer conversions -/

/-- Truncation toward zero. -/
def trunc (x : lua_Number) : Int := Int.tdiv x.num x.den

/-- Reduction of an integer into the range of a 32-bit `int`. -/
def wrapInt32 (i : Int) : Int := (i + 2 ^ 31) % 2 ^ 32 - 2 ^ 31

/-- Conversion of a `double` to `int`: truncation when the result fits, else
whatever the platform produces. -/
def double_to_int (H : Host) (x : lua_Number) : Int :=
  if -2 ^ 31 ≤ trunc x ∧ trunc x < 2 ^ 31 then trunc x else wrapInt32 (H.d2i_outOfRange x)

/-- Reduction of an integer into the range of a `w`-bit unsigned type. -/
def wrapU (w : Nat) (i : Int) : Nat := (i % 2 ^ w).toNat

/-- Conversion of an `int` to a 32-bit unsigned type (`useconds_t`, `DWORD`). -/
def toUInt32 (i : Int) : Nat := wrapU 32 i

/-- The numeric reading of an optional argument: that of a number, or of a
string Lua can convert; none for an absent argument or any other value. -/
def numericValue (H : Host) : Option TValue → Option lua_Number
  | some (.number n) => some n
  | some (.string s) => H.luaO_str2d s
  | _ => none

/-- The number stored under key `k` when `v` is a table that has the key. -/
def field? (v : TValue) (k : String) : Option lua_Number :=
  match v with
  | .table fields => (fields.find? (fun e => e.1 == k)).map (fun e => e.2)
  | _ => none

/-- The keys of a table, in insertion order; no keys for other values. -/
def keys (v : TValue) : List String :=
  match v with
  | .table fields => fields.map (fun e => e.1)
  | _ => []

/-- Reading of a non-empty string of decimal digits. -/
def decimal? (cs : List Char) : Option Nat :=
  if cs ≠ [] ∧ cs.all Char.isDigit then
    some (cs.foldl (fun n c => 10 * n + (c.toNat - 48)) 0)
  else none

/-- A host for evaluation: strings of decimal digits are convertible, and an
out-of-range conversion gives `INT_MIN`. -/
def exampleHost : Host :=
  { luaO_str2d := fun s => (decimal? s.data).map (fun n => (n : lua_Number))
    d2i_outOfRange := fun _ => -2 ^ 31 }

/-! ## The POSIX branch -/

namespace Posix

structure timeval where
  tv_sec : Int
  tv_usec : Int
  deriving DecidableEq

/-- The fields of `struct rusage` that `sys.c` reads. -/
structure rusage where
  ru_utime : timeval
  ru_stime : timeval
  ru_maxrss : Int
  ru_minflt : Int
  ru_majflt : Int
  ru_nvcsw : Int
  ru_nivcsw : Int
  deriving DecidableEq

/-- The fields of `struct sysinfo` that `sys.c` reads: four `unsigned long`
counts and the `unsigned int` unit. -/
structure sysinfo where
  totalram : Nat
  freeram : Nat
  totalswap : Nat
  freeswap : Nat
  mem_unit : Nat
  deriving DecidableEq

/-- The function `l_clock` (lines 43-52); `tv` is what `gettimeofday` stored. -/
def l_clock (tv : timeval) (L : lua_State) : lua_State × Int :=
  let precise_time : lua_Number := tv.tv_sec + tv.tv_usec / 1000000
  let L := lua_pushnumber L precise_time
  (L, 1)

/-- The local `time` of `l_usleep` at the call of `usleep`. -/
def l_usleep_time (H : Host) (L : lua_State) : Int :=
  if lua_isnumber H L 1 then double_to_int H (lua_tonumber H L 1) else 1

/-- The function `l_usleep` (lines 54-59). -/
def l_usleep (H : Host) (L : lua_State) : lua_State × Int :=
  let time := l_usleep_time H L
  ({ L with trace := L.trace ++ [Syscall.usleep (toUInt32 time)] }, 1)

def PRIO_PROCESS : Int := 0

/-- The local `priority` of `l_set_priority` at the call of `setpriority`. -/
def l_set_priority_priority (H : Host) (L : lua_State) : Int :=
  if lua_isnumber H L 1 then double_to_int H (lua_tonumber H L 1) else 0

/-- The function `l_set_priority` (lines 167-176); `setpriority` gives the
return value of the system call. -/
def l_set_priority (H : Host) (setpriority : Int → Int → Int → Int) (L : lua_State) :
    lua_State × Int :=
  let priority := l_set_priority_priority H L
  let result := setpriority PRIO_PROCESS 0 priority
  let L := { L with trace := L.trace ++ [Syscall.setpriority PRIO_PROCESS 0 priority] }
  let L := lua_pushboolean L (result == 0)
  (L, 1)

/-- The function `l_memory_usage` (lines 61-84); `ret` is the return value of
`getrusage` and `usage` what it stored. -/
def l_memory_usage (ret : Int) (usage : rusage) (L : lua_State) : Option (lua_State × Int) :=
  if ret = 0 then do
    let L := lua_newtable L
    let L := lua_pushstring L "rss_kb"
    let L := lua_pushnumber L usage.ru_maxrss
    let L ← lua_settable L (-3)
    let L := lua_pushstring L "major_page_faults"
    let L := lua_pushnumber L usage.ru_majflt
    let L ← lua_settable L (-3)
    let L := lua_pushstring L "minor_page_faults"
    let L := lua_pushnumber L usage.ru_minflt
    let L ← lua_settable L (-3)
    pure (L, 1)
  else
    let L := lua_pushnil L
    pure (L, 1)

/-- The function `l_system_memory` (lines 86-117); `w` is the width of
`unsigned long`, `ret` the return value of `sysinfo` and `si` what it stored. -/
def l_system_memory (w : Nat) (ret : Int) (si : sysinfo) (L : lua_State) :
    Option (lua_State × Int) :=
  if ret = 0 then do
    let L := lua_newtable L
    let L := lua_pushstring L "total_ram"
    let L := lua_pushnumber L (wrapU w (si.totalram * si.mem_unit))
    let L ← lua_settable L (-3)
    let L := lua_pushstring L "free_ram"
    let L := lua_pushnumber L (wrapU w (si.freeram * si.mem_unit))
    let L ← lua_settable L (-3)
    let L := lua_pushstring L "used_ram"
    let L := lua_pushnumber L (wrapU w (wrapU w ((si.totalram : Int) - si.freeram) * si.mem_unit))
    let L ← lua_settable L (-3)
    let L := lua_pushstring L "total_swap"
    let L := lua_pushnumber L (wrapU w (si.totalswap * si.mem_unit))
    let L ← lua_settable L (-3)
    let L := lua_pushstring L "free_swap"
    let L := lua_pushnumber L (wrapU w (si.freeswap * si.mem_unit))
    let L ← lua_settable L (-3)
    pure (L, 1)
  else
    let L := lua_pushnil L
    pure (L, 1)

/-- The function `l_process_info` (lines 129-160); `ret` is the return value
of `getrusage` and `usage` what it stored. -/
def l_process_info (ret : Int) (usage : rusage) (L : lua_State) : Option (lua_State × Int) :=
  if ret = 0 then do
    let L := lua_newtable L
    let L := lua_pushstring L "user_time"
    let L := lua_pushnumber L (usage.ru_utime.tv_sec + usage.ru_utime.tv_usec / 1000000)
    let L ← lua_settable L (-3)
    let L := lua_pushstring L "system_time"
    let L := lua_pushnumber L (usage.ru_stime.tv_sec + usage.ru_stime.tv_usec / 1000000)
    let L ← lua_settable L (-3)
    let L := lua_pushstring L "max_rss_kb"
    let L := lua_pushnumber L usage.ru_maxrss
    let L ← lua_settable L (-3)
    let L := lua_pushstring L "voluntary_context_switches"
    let L := lua_pushnumber L usage.ru_nvcsw
    let L ← lua_settable L (-3)
    let L := lua_pushstring L "involuntary_context_switches"
    let L := lua_pushnumber L usage.ru_nivcsw
    let L ← lua_settable L (-3)
    pure (L, 1)
  else
    let L := lua_pushnil L
    pure (L, 1)

end Posix

/-! ## The Windows branch -/

namespace Win32

/-- The two 32-bit words of a `FILETIME`. -/
structure FILETIME where
  dwLowDateTime : Nat
  dwHighDateTime : Nat
  deriving DecidableEq

/-- The constant `EPOCH` of `l_clock`. -/
def EPOCH : Nat := 116444736000000000

/-- The local `time` of `l_clock`, a `uint64_t`: the high word shifted left by
32 bits plus the low word. -/
def l_clock_time (filetime : FILETIME) : Nat :=
  wrapU 64 (wrapU 64 (filetime.dwHighDateTime * 2 ^ 32) + filetime.dwLowDateTime)

/-- The function `l_clock` (lines 10-21); `filetime` is what
`GetSystemTimeAsFileTime` stored. -/
def l_clock (filetime : FILETIME) (L : lua_State) : lua_State × Int :=
  let time := l_clock_time filetime
  let precise_time : lua_Number := (wrapU 64 ((time : Int) - EPOCH) : lua_Number) / 10000000
  let L := lua_pushnumber L precise_time
  (L, 1)

/-- The local `time` of `l_usleep` before the division. -/
def l_usleep_time (H : Host) (L : lua_State) : Int :=
  if lua_isnumber H L 1 then double_to_int H (lua_tonumber H L 1) else 1

/-- The function `l_usleep` (lines 23-28). -/
def l_usleep (H : Host) (L : lua_State) : lua_State × Int :=
  let time := l_usleep_time H L
  ({ L with trace := L.trace ++ [Syscall.Sleep (toUInt32 (Int.tdiv time 1000))] }, 1)

end Win32

/-! ## Auxiliary facts -/

theorem index2adr_call_one (args : List TValue) : index2adr (call args) 1 = args.head? := by
  cases args with
  | nil => simp [index2adr, call]
  | cons a rest => simp [index2adr, call, List.getElem?_append_right]

theorem lua_isnumber_call (H : Host) (args : List TValue) :
    lua_isnumber H (call args) 1 = (numericValue H args.head?).isSome := by
  unfold lua_isnumber
  rw [index2adr_call_one]
  rcases args.head? with _ | v
  · rfl
  · cases v <;> rfl

theorem lua_tonumber_call (H : Host) (args : List TValue) :
    lua_tonumber H (call args) 1 = (numericValue H args.head?).getD 0 := by
  unfold lua_tonumber
  rw [index2adr_call_one]
  rcases args.head? with _ | v
  · rfl
  · cases v <;> rfl

theorem trunc_natCast (d : Nat) : trunc (d : lua_Number) = d := by
  simp [trunc]

theorem double_to_int_natCast (H : Host) (d : Nat) (hd : d < 2 ^ 31) :
    double_to_int H (d : lua_Number) = d := by
  unfold double_to_int
  rw [trunc_natCast]
  have h1 : (-2 ^ 31 : Int) ≤ (d : Int) := by omega
  have h2 : (d : Int) < 2 ^ 31 := by exact_mod_cast hd
  rw [if_pos ⟨h1, h2⟩]

theorem results_push (v : TValue) (L : lua_State) :
    results (({ stack := v :: L.stack, trace := L.trace } : lua_State), 1) = [v] := by
  simp [results]

theorem l_memory_usage_ok (usage : Posix.rusage) (L : lua_State) :
    Posix.l_memory_usage 0 usage L =
      some ({ stack := .table [("rss_kb", usage.ru_maxrss),
                ("major_page_faults", usage.ru_majflt),
                ("minor_page_faults", usage.ru_minflt)] :: L.stack,
              trace := L.trace }, 1) := by
  simp [Posix.l_memory_usage, lua_newtable, lua_pushstring, lua_pushnumber, lua_settable, rawset]

theorem l_memory_usage_fail (ret : Int) (h : ret ≠ 0) (usage : Posix.rusage) (L : lua_State) :
    Posix.l_memory_usage ret usage L =
      some ({ stack := .nil :: L.stack, trace := L.trace }, 1) := by
  simp [Posix.l_memory_usage, lua_pushnil, h]

theorem l_process_info_ok (usage : Posix.rusage) (L : lua_State) :
    Posix.l_process_info 0 usage L =
      some ({ stack := .table [
                ("user_time", usage.ru_utime.tv_sec + usage.ru_utime.tv_usec / 1000000),
                ("system_time", usage.ru_stime.tv_sec + usage.ru_stime.tv_usec / 1000000),
                ("max_rss_kb", usage.ru_maxrss),
                ("voluntary_context_switches", usage.ru_nvcsw),
                ("involuntary_context_switches", usage.ru_nivcsw)] :: L.stack,
              trace := L.trace }, 1) := by
  simp [Posix.l_process_info, lua_newtable, lua_pushstring, lua_pushnumber, lua_settable, rawset]

theorem l_process_info_fail (ret : Int) (h : ret ≠ 0) (usage : Posix.rusage) (L : lua_State) :
    Posix.l_process_info ret usage L =
      some ({ stack := .nil :: L.stack, trace := L.trace }, 1) := by
  simp [Posix.l_process_info, lua_pushnil, h]

theorem l_system_memory_ok (w : Nat) (si : Posix.sysinfo) (L : lua_State) :
    Posix.l_system_memory w 0 si L =
      some ({ stack := .table [
                ("total_ram", wrapU w (si.totalram * si.mem_unit)),
                ("free_ram", wrapU w (si.freeram * si.mem_unit)),
                ("used_ram",
                  wrapU w (wrapU w ((si.totalram : Int) - si.freeram) * si.mem_unit)),
                ("total_swap", wrapU w (si.totalswap * si.mem_unit)),
                ("free_swap", wrapU w (si.freeswap * si.mem_unit))] :: L.stack,
              trace := L.trace }, 1) := by
  simp [Posix.l_system_memory, lua_newtable, lua_pushstring, lua_pushnumber, lua_settable,
    rawset]

theorem l_system_memory_fail (w : Nat) (ret : Int) (h : ret ≠ 0) (si : Posix.sysinfo)
    (L : lua_State) :
    Posix.l_system_memory w ret si L =
      some ({ stack := .nil :: L.stack, trace := L.trace }, 1) := by
  simp [Posix.l_system_memory, lua_pushnil, h]

theorem wrapU_cast (w : Nat) (i : Int) : ((wrapU w i : Nat) : Int) = i % 2 ^ w := by
  unfold wrapU
  exact Int.toNat_of_nonneg (Int.emod_nonneg _ (pow_ne_zero _ (by norm_num)))

theorem wrapU_of_lt (w : Nat) (n : Nat) (h : n < 2 ^ w) : wrapU w (n : Int) = n := by
  unfold wrapU
  have : ((n : Int) % 2 ^ w) = n := Int.emod_eq_of_lt (by omega) (by exact_mod_cast h)
  rw [this]; rfl

/-! ## Sleeping and priority: defaults, results, outcome -/

/-- C2, as stated, fails: `sleep_microseconds(0)` passes 0 microseconds to
`usleep`, not the default 1. -/
theorem usleep_zero_passes_zero :
    (Posix.l_usleep exampleHost (call [.number 0])).1.trace = [Syscall.usleep 0] ∧
    (Posix.l_usleep exampleHost (call [.number 0])).1.trace ≠
      (Posix.l_usleep exampleHost (call [.number 1])).1.trace := by
  decide

/-- C2, amended: on the POSIX branch a call without argument passes 1
microsecond to `usleep`, as a call with argument 1 does, while a call with
argument 0 passes 0; on the Windows branch all three calls pass 0 milliseconds
to `Sleep`. -/
theorem usleep_no_argument_as_one (H : Host) :
    (Posix.l_usleep H (call [])).1.trace = [Syscall.usleep 1] ∧
    (Posix.l_usleep H (call [.number 1])).1.trace = [Syscall.usleep 1] ∧
    (Posix.l_usleep H (call [.number 0])).1.trace = [Syscall.usleep 0] ∧
    (Win32.l_usleep H (call [])).1.trace = [Syscall.Sleep 0] ∧
    (Win32.l_usleep H (call [.number 1])).1.trace = [Syscall.Sleep 0] ∧
    (Win32.l_usleep H (call [.number 0])).1.trace = [Syscall.Sleep 0] := by
  have h0 := double_to_int_natCast H 0 (by norm_num)
  have h1 := double_to_int_natCast H 1 (by norm_num)
  simp only [Nat.cast_zero, Nat.cast_one] at h0 h1
  simp only [Posix.l_usleep, Posix.l_usleep_time, Win32.l_usleep, Win32.l_usleep_time,
    lua_isnumber_call, lua_tonumber_call, numericValue, List.head?, Option.isSome,
    Option.getD, h0, h1]
  decide

/-- C3: called with the argument 5, `l_usleep` pushes nothing and yet returns
1 on both branches, so the caller receives one result, the argument itself. -/
theorem usleep_reports_one_result :
    (Posix.l_usleep exampleHost (call [.number 5])).2 = 1 ∧
    (Win32.l_usleep exampleHost (call [.number 5])).2 = 1 ∧
    (Posix.l_usleep exampleHost (call [.number 5])).1.stack = (call [.number 5]).stack ∧
    results (Posix.l_usleep exampleHost (call [.number 5])) = [.number 5] ∧
    results (Win32.l_usleep exampleHost (call [.number 5])) = [.number 5] := by
  decide

/-- C4: whatever the argument and whatever `setpriority` returns,
`l_set_priority` returns exactly one value, a boolean that is true exactly
when `setpriority` returned 0; the function is total, so no error is raised. -/
theorem set_priority_returns_success_flag (H : Host) (setpriority : Int → Int → Int → Int)
    (L : lua_State) :
    (Posix.l_set_priority H setpriority L).2 = 1 ∧
    ∃ b : Bool, results (Posix.l_set_priority H setpriority L) = [.boolean b] ∧
      (b = true ↔
        setpriority Posix.PRIO_PROCESS 0 (Posix.l_set_priority_priority H L) = 0) ∧
      (Posix.l_set_priority H setpriority L).1.trace =
        L.trace ++ [Syscall.setpriority Posix.PRIO_PROCESS 0
          (Posix.l_set_priority_priority H L)] := by
  refine ⟨rfl, _, rfl, ?_, rfl⟩
  simp

/-- C5: when the first argument is absent or has no numeric reading,
`l_usleep` uses the duration 1 and `l_set_priority` the priority 0, and both
return normally; when it has the numeric reading `n`, both use `n` converted
to `int`. -/
theorem usleep_set_priority_defaults (H : Host) (setpriority : Int → Int → Int → Int)
    (args : List TValue) :
    (Posix.l_usleep H (call args)).2 = 1 ∧
    (Posix.l_set_priority H setpriority (call args)).2 = 1 ∧
    (Posix.l_usleep H (call args)).1.trace =
      [Syscall.usleep (toUInt32 (Posix.l_usleep_time H (call args)))] ∧
    (Posix.l_set_priority H setpriority (call args)).1.trace =
      [Syscall.setpriority Posix.PRIO_PROCESS 0 (Posix.l_set_priority_priority H (call args))] ∧
    (numericValue H args.head? = none →
      Posix.l_usleep_time H (call args) = 1 ∧
      Posix.l_set_priority_priority H (call args) = 0) ∧
    (∀ n, numericValue H args.head? = some n →
      Posix.l_usleep_time H (call args) = double_to_int H n ∧
      Posix.l_set_priority_priority H (call args) = double_to_int H n) := by
  refine ⟨rfl, rfl, rfl, rfl, ?_, ?_⟩
  · intro h
    simp [Posix.l_usleep_time, Posix.l_set_priority_priority, lua_isnumber_call, h]
  · intro n h
    simp [Posix.l_usleep_time, Posix.l_set_priority_priority, lua_isnumber_call,
      lua_tonumber_call, h]

/-- C5 at concrete arguments: no argument, `nil` and the string "x" give the
defaults; the string "12" and the number 7 are used, as 12 and 7. -/
theorem usleep_set_priority_defaults_witness :
    numericValue exampleHost ([] : List TValue).head? = none ∧
    numericValue exampleHost [TValue.nil].head? = none ∧
    numericValue exampleHost [TValue.string "x"].head? = none ∧
    numericValue exampleHost [TValue.string "12"].head? = some 12 ∧
    numericValue exampleHost [TValue.number 7].head? = some 7 ∧
    double_to_int exampleHost 12 = 12 ∧ double_to_int exampleHost 7 = 7 ∧
    Posix.l_usleep_time exampleHost (call []) = 1 ∧
    Posix.l_set_priority_priority exampleHost (call [.nil]) = 0 ∧
    Posix.l_usleep_time exampleHost (call [.string "x"]) = 1 ∧
    Posix.l_set_priority_priority exampleHost (call [.string "12"]) =
      double_to_int exampleHost 12 ∧
    Posix.l_usleep_time exampleHost (call [.number 7]) = double_to_int exampleHost 7 :=
  ⟨by decide, by decide, by decide, by decide, by decide, by decide, by decide,
   ((usleep_set_priority_defaults exampleHost (fun _ _ _ => 0) []).2.2.2.2.1 (by decide)).1,
   ((usleep_set_priority_defaults exampleHost (fun _ _ _ => 0) [.nil]).2.2.2.2.1 (by decide)).2,
   ((usleep_set_priority_defaults exampleHost (fun _ _ _ => 0) [.string "x"]).2.2.2.2.1
      (by decide)).1,
   ((usleep_set_priority_defaults exampleHost (fun _ _ _ => 0) [.string "12"]).2.2.2.2.2 12
      (by decide)).2,
   ((usleep_set_priority_defaults exampleHost (fun _ _ _ => 0) [.number 7]).2.2.2.2.2 7
      (by decide)).1⟩

/-! ## The resource and memory queries -/

/-- C7: each of `l_memory_usage`, `l_system_memory` and `l_process_info`
returns normally with exactly one value pushed on the caller's stack; that
value is `nil` exactly when the operating-system query returned non-zero, and
a table when it returned 0. -/
theorem queries_nil_iff_failure (w : Nat) (ret : Int) (usage : Posix.rusage)
    (si : Posix.sysinfo) (L : lua_State) :
    (∃ v, Posix.l_memory_usage ret usage L = some (⟨v :: L.stack, L.trace⟩, 1) ∧
      results (⟨v :: L.stack, L.trace⟩, 1) = [v] ∧ (v = .nil ↔ ret ≠ 0) ∧
      ((ret ≠ 0 ∧ v = .nil) ∨ (ret = 0 ∧ ∃ fields, v = .table fields))) ∧
    (∃ v, Posix.l_system_memory w ret si L = some (⟨v :: L.stack, L.trace⟩, 1) ∧
      results (⟨v :: L.stack, L.trace⟩, 1) = [v] ∧ (v = .nil ↔ ret ≠ 0) ∧
      ((ret ≠ 0 ∧ v = .nil) ∨ (ret = 0 ∧ ∃ fields, v = .table fields))) ∧
    (∃ v, Posix.l_process_info ret usage L = some (⟨v :: L.stack, L.trace⟩, 1) ∧
      results (⟨v :: L.stack, L.trace⟩, 1) = [v] ∧ (v = .nil ↔ ret ≠ 0) ∧
      ((ret ≠ 0 ∧ v = .nil) ∨ (ret = 0 ∧ ∃ fields, v = .table fields))) := by
  by_cases h : ret = 0
  · subst h
    refine ⟨⟨_, l_memory_usage_ok usage L, results_push _ L, by simp, Or.inr ⟨rfl, _, rfl⟩⟩,
      ⟨_, l_system_memory_ok w si L, results_push _ L, by simp, Or.inr ⟨rfl, _, rfl⟩⟩,
      ⟨_, l_process_info_ok usage L, results_push _ L, by simp, Or.inr ⟨rfl, _, rfl⟩⟩⟩
  · refine ⟨⟨_, l_memory_usage_fail ret h usage L, results_push _ L, by simp [h],
        Or.inl ⟨h, rfl⟩⟩,
      ⟨_, l_system_memory_fail w ret h si L, results_push _ L, by simp [h], Or.inl ⟨h, rfl⟩⟩,
      ⟨_, l_process_info_fail ret h usage L, results_push _ L, by simp [h], Or.inl ⟨h, rfl⟩⟩⟩

/-- C6, as stated, fails: for a successful snapshot with maximum resident set
size 5, the record of `l_memory_usage` has the three keys `rss_kb`,
`major_page_faults`, `minor_page_faults` and no field `max_rss_kb`. -/
theorem memory_usage_has_no_max_rss_kb :
    (Posix.l_memory_usage 0 ⟨⟨1, 2⟩, ⟨3, 4⟩, 5, 6, 7, 8, 9⟩ (call [])).map
        (fun r => (results r).map (fun v => (keys v, field? v "max_rss_kb"))) =
      some [(["rss_kb", "major_page_faults", "minor_page_faults"], none)] := by
  decide

/-- C6, amended: for every successful snapshot, `l_process_info` returns a
record with exactly the keys `user_time`, `system_time`, `max_rss_kb`,
`voluntary_context_switches`, `involuntary_context_switches`, whose
`max_rss_kb` is the snapshot's `ru_maxrss`; `l_memory_usage` returns a record
with exactly the keys `rss_kb`, `major_page_faults`, `minor_page_faults`, whose
`rss_kb` is the same `ru_maxrss`. -/
theorem process_info_and_memory_usage_shapes (usage : Posix.rusage) (L : lua_State) :
    (∃ v, (Posix.l_process_info 0 usage L).map results = some [v] ∧
      keys v = ["user_time", "system_time", "max_rss_kb", "voluntary_context_switches",
        "involuntary_context_switches"] ∧
      field? v "max_rss_kb" = some (usage.ru_maxrss : lua_Number)) ∧
    (∃ v, (Posix.l_memory_usage 0 usage L).map results = some [v] ∧
      keys v = ["rss_kb", "major_page_faults", "minor_page_faults"] ∧
      field? v "rss_kb" = some (usage.ru_maxrss : lua_Number) ∧
      field? v "max_rss_kb" = none) := by
  rw [l_process_info_ok, l_memory_usage_ok]
  simp only [Option.map_some', results_push]
  exact ⟨⟨_, rfl, rfl, by simp [field?, List.find?]⟩,
    ⟨_, rfl, rfl, by simp [field?, List.find?], by simp [field?, List.find?]⟩⟩

/-- The three RAM fields of a successful reading always add up modulo `2 ^ w`. -/
theorem l_system_memory_sum_mod (w : Nat) (si : Posix.sysinfo) :
    (wrapU w ((wrapU w ((si.totalram : Int) - si.freeram) : Int) * si.mem_unit) +
      wrapU w ((si.freeram : Int) * si.mem_unit)) % 2 ^ w =
      wrapU w ((si.totalram : Int) * si.mem_unit) := by
  have hmod : (((si.totalram : Int) - si.freeram) % 2 ^ w * si.mem_unit +
      (si.freeram : Int) * si.mem_unit) % 2 ^ w =
      ((si.totalram : Int) * si.mem_unit) % 2 ^ w := by
    have h1 : ((si.totalram : Int) - si.freeram) % 2 ^ w ≡
        (si.totalram : Int) - si.freeram [ZMOD 2 ^ w] := Int.mod_modEq _ _
    have h2 := (h1.mul_right (si.mem_unit : Int)).add_right
      ((si.freeram : Int) * si.mem_unit)
    have h3 : ((si.totalram : Int) - si.freeram) * si.mem_unit +
        (si.freeram : Int) * si.mem_unit = (si.totalram : Int) * si.mem_unit := by ring
    rw [h3] at h2
    exact h2
  have hgoal : (((wrapU w ((wrapU w ((si.totalram : Int) - si.freeram) : Int) *
        si.mem_unit) + wrapU w ((si.freeram : Int) * si.mem_unit) : Nat) : Int)) % 2 ^ w =
      ((wrapU w ((si.totalram : Int) * si.mem_unit) : Nat) : Int) := by
    rw [Nat.cast_add, wrapU_cast, wrapU_cast, wrapU_cast, wrapU_cast, ← Int.add_emod]
    exact hmod
  exact_mod_cast hgoal

theorem l_clock_time_eq (ft : Win32.FILETIME) (hh : ft.dwHighDateTime < 2 ^ 32)
    (hl : ft.dwLowDateTime < 2 ^ 32) :
    Win32.l_clock_time ft = ft.dwHighDateTime * 2 ^ 32 + ft.dwLowDateTime := by
  unfold Win32.l_clock_time
  have h1 : ft.dwHighDateTime * 2 ^ 32 < 2 ^ 64 := by omega
  have e1 : wrapU 64 ((ft.dwHighDateTime : Int) * 2 ^ 32) = ft.dwHighDateTime * 2 ^ 32 := by
    have := wrapU_of_lt 64 (ft.dwHighDateTime * 2 ^ 32) h1
    rwa [Nat.cast_mul, Nat.cast_pow, Nat.cast_ofNat] at this
  rw [e1]
  have h2 : ft.dwHighDateTime * 2 ^ 32 + ft.dwLowDateTime < 2 ^ 64 := by omega
  have := wrapU_of_lt 64 (ft.dwHighDateTime * 2 ^ 32 + ft.dwLowDateTime) h2
  rwa [Nat.cast_add] at this

/-- For a file time before 1970 the 64-bit unsigned difference wraps. -/
theorem l_clock_wrapped (ft : Win32.FILETIME) (L : lua_State)
    (hh : ft.dwHighDateTime < 2 ^ 32) (hl : ft.dwLowDateTime < 2 ^ 32)
    (hlt' : ft.dwHighDateTime * 2 ^ 32 + ft.dwLowDateTime < Win32.EPOCH) :
    results (Win32.l_clock ft L) =
      [.number ((((ft.dwHighDateTime * 2 ^ 32 + ft.dwLowDateTime : Nat) : lua_Number) +
        2 ^ 64 - 116444736000000000) / 10000000)] := by
  have ht := l_clock_time_eq ft hh hl
  generalize ft.dwHighDateTime * 2 ^ 32 + ft.dwLowDateTime = t at ht hlt'
  unfold Win32.EPOCH at hlt'
  have hw : wrapU 64 ((t : Int) - (Win32.EPOCH : Nat)) =
      t + 2 ^ 64 - 116444736000000000 := by
    unfold wrapU Win32.EPOCH
    omega
  have hle : 116444736000000000 ≤ t + 2 ^ 64 := by omega
  simp only [Win32.l_clock, lua_pushnumber, results, ht, hw]
  simp [Nat.cast_sub hle]
  norm_num
  ring

end Sys
